import Mathlib

/-!
DoIP payload dissectors: status response (0x4002) and diagnostic message negative
acknowledge (0x8003).

A shallow embedding of `src/plugins/doip/doip-payload-4002.c` and
`src/plugins/doip/doip-payload-8003.c`.

* `guint32` values are natural numbers below `2 ^ 32`; `gint` values are integers.
  The conversion `guint32 -> gint` is `toGint` (two's complement wrap).
* The host's range tables (`range_string`) are lists that end in the entry whose
  `strptr` is `NULL` (`none`).
* The protocol tree is the ordered list of the items that were handed to
  `insert_item_to_tree`.
-/

namespace Doip

/-! ## Host types -/

/-- One octet of a message. -/
abbrev Byte := Fin 256

/-- The buffer handle `tvbuff_t`: the payload octets, payload-relative. -/
abbrev tvbuff_t := List Byte

/-- The host's `range_string`: `{ value_min, value_max, strptr }`; the entry that closes
a table has `strptr = NULL`, here `none`. -/
structure range_string where
  value_min : Nat
  value_max : Nat
  strptr : Option String
  deriving DecidableEq

/-- Encodings passed to `insert_item_to_tree`. -/
inductive Encoding where
  | ENC_BIG_ENDIAN
  | ENC_NA
  deriving DecidableEq

/-- Field types used in the `hf_register_info` arrays. -/
inductive ftenum where
  | FT_UINT8
  | FT_UINT16
  | FT_UINT32
  | FT_BYTES
  deriving DecidableEq

/-- The header-field handles of both source files (`static gint hf_... = -1`, given their
identity by the one-time registration). -/
inductive HfId where
  | hf_nd
  | hf_mcts
  | hf_ncts
  | hf_mds
  | hf_sa
  | hf_ta
  | hf_nack
  | hf_pdmd
  deriving DecidableEq

/-- One row of an `hf_register_info` array: handle, name, abbreviation, type and the
range table given with `RVALS(...)` (`NULL` is `none`). -/
structure hf_register_info where
  p_id : HfId
  name : String
  abbreviation : String
  type : ftenum
  strings : Option (List range_string)

/-- One recorded call of `insert_item_to_tree`: field handle, payload-relative start,
length and encoding. -/
structure TreeItem where
  hfindex : HfId
  start : Int
  length : Int
  encoding : Encoding
  deriving DecidableEq

/-- The protocol tree: the items added so far, in order. -/
abbrev proto_tree := List TreeItem

/-- The `payload` member of `doip_header` (declared in `doip-header.h`): the declared
payload length, a `guint32`. -/
structure doip_payload where
  length : Nat
  deriving DecidableEq

/-- The message header `doip_header` as far as the two dissectors read it. -/
structure doip_header where
  payload : doip_payload
  deriving DecidableEq

/-- What a dissector wrote to the info column: `col_add_fstr (format, args...)` or
`col_set_str (text)`. -/
inductive ColInfo where
  | col_add_fstr (format : String) (args : List Nat)
  | col_set_str (text : String)
  deriving DecidableEq

/-- Conversion of a `guint32` to `gint` (32-bit two's complement), as done by the cast
`(gint) payloadLength` and by the assignment `payload_len = header->payload.length`. -/
def toGint (n : Nat) : Int :=
  if n % 2 ^ 32 < 2 ^ 31 then ((n % 2 ^ 32 : Nat) : Int) else ((n % 2 ^ 32 : Nat) : Int) - 2 ^ 32

/-! ## Helpers that live outside the two source files -/

/-- Modelled from the spec: the host's range-table lookup (`try_rval_to_str_idx`, behind
`RVALS`), not part of the source files. It scans the entries in declaration order up to
the closing `NULL` entry and returns index and label of the first entry whose inclusive
range `[value_min, value_max]` contains `val`; `none` when no entry matches. -/
def try_rval_to_str_idx_from (val : Nat) : List range_string → Nat → Option (Nat × String)
  | [], _ => none
  | e :: rest, i =>
    match e.strptr with
    | none => none
    | some s =>
      if e.value_min ≤ val ∧ val ≤ e.value_max then some (i, s)
      else try_rval_to_str_idx_from val rest (i + 1)

/-- Modelled from the spec: first-match lookup with the index of the matching entry. -/
def try_rval_to_str_idx (val : Nat) (rs : List range_string) : Option (Nat × String) :=
  try_rval_to_str_idx_from val rs 0

/-- Modelled from the spec: first-match lookup, `lookup(value) -> Option<label>`. -/
def try_rval_to_str (val : Nat) (rs : List range_string) : Option String :=
  (try_rval_to_str_idx val rs).map Prod.snd

/-- Modelled from the spec: `insert_item_to_tree` of `doip-helper.c`, which is not among
the source files: the sink that records `(field-id, byte-range, encoding)` in call
order. -/
def insert_item_to_tree (tree : proto_tree) (hfindex : HfId) (_tvb : tvbuff_t)
    (rel_pos : Int) (length : Int) (encoding : Encoding) : proto_tree :=
  tree ++ [⟨hfindex, rel_pos, length, encoding⟩]

/-- The helpers of `doip-helper.c` that the dissectors call for the info column and the
buffer; they are not among the source files and are taken as parameters.
`get_guintN_from_message header off` is `some v` when the C function returns true and
stores `v`, `none` when it returns false. -/
structure doip_helper where
  get_guint8_from_message : doip_header → Nat → Option Nat
  get_guint16_from_message : doip_header → Nat → Option Nat
  get_guint32_from_message : doip_header → Nat → Option Nat
  retrieve_tvbuff : doip_header → Option tvbuff_t

/-- Big-endian unsigned value of a run of octets. -/
def beValue (bytes : List Byte) : Nat :=
  bytes.foldl (fun acc b => acc * 256 + b.val) 0

/-- The octets `[start, start + len)` of a buffer, `none` when they are not all there. -/
def tvbBytes (tvb : tvbuff_t) (start len : Nat) : Option (List Byte) :=
  if start + len ≤ tvb.length then some ((tvb.drop start).take len) else none

/-- A helper instance that reads from the buffer `b`: a read of `n` octets at `off`
succeeds exactly when `off + n` is within the declared payload length, and then gives
the big-endian value there. -/
def bufferHelper (b : tvbuff_t) : doip_helper where
  get_guint8_from_message := fun h off =>
    if off + 1 ≤ h.payload.length then some (beValue ((b.drop off).take 1)) else none
  get_guint16_from_message := fun h off =>
    if off + 2 ≤ h.payload.length then some (beValue ((b.drop off).take 2)) else none
  get_guint32_from_message := fun h off =>
    if off + 4 ≤ h.payload.length then some (beValue ((b.drop off).take 4)) else none
  retrieve_tvbuff := fun _ => some b

/-- The result of one `dissect_payload_*` call: the info column and the tree. -/
structure DissectResult where
  col_info : ColInfo
  tree : proto_tree
  deriving DecidableEq

/-- Every item of a tree lies within the first `L` octets. -/
def requestsWithin (L : Nat) (tree : proto_tree) : Prop :=
  ∀ item ∈ tree, 0 ≤ item.start ∧ 0 ≤ item.length ∧ item.start + item.length ≤ (L : Int)

instance (L : Nat) (tree : proto_tree) : Decidable (requestsWithin L tree) := by
  unfold requestsWithin
  infer_instance

/-- The value of a rendered field: an unsigned integer with its resolved label, or the
raw octets of an `FT_BYTES` field. -/
inductive FieldValue where
  | uint (raw : Nat) (label : Option String)
  | bytes (data : List Byte)
  deriving DecidableEq

/-- A rendered field: the handle and the value. -/
structure DecodedField where
  hfindex : HfId
  value : FieldValue
  deriving DecidableEq

/-- Modelled from the spec: how the host renders one recorded item against the buffer
(the host's `proto_tree_add_item`, not part of the source files). The octets of the item
are read when they all lie in the buffer (`none` otherwise); integer fields are
big-endian unsigned values, resolved through the range table registered for the field;
an `FT_BYTES` field is the octets themselves. -/
def renderItem (hf : List hf_register_info) (tvb : tvbuff_t) (item : TreeItem) :
    Option DecodedField :=
  match hf.find? (fun info => decide (info.p_id = item.hfindex)) with
  | none => none
  | some info =>
    if item.start < 0 ∨ item.length < 0 then none
    else
      match tvbBytes tvb item.start.toNat item.length.toNat with
      | none => none
      | some octets =>
        match info.type with
        | .FT_BYTES => some ⟨item.hfindex, .bytes octets⟩
        | _ =>
          some ⟨item.hfindex,
            .uint (beValue octets) (info.strings.bind (try_rval_to_str (beValue octets)))⟩

/-- Modelled from the spec: the rendering of a whole tree, item by item. -/
def renderTree (hf : List hf_register_info) (tvb : tvbuff_t) (tree : proto_tree) :
    List (Option DecodedField) :=
  tree.map (renderItem hf tvb)

/-! ## doip-payload-4002.c -/

namespace Payload4002

/-- The static `description`. -/
def description : String := "DoIP status response"

/-- The static `description_format`. -/
def description_format : String :=
  "DoIP status response [Node type: %#x, open TCP sockets: %#x, max. data size: %#x]"

/-- The table `node_types` (ISO 13400-2:2012(E), table 37). -/
def node_types : List range_string :=
  [ ⟨0x00, 0x00, some "DoIP gateway"⟩,
    ⟨0x01, 0x01, some "DoIP node"⟩,
    ⟨0x02, 0xFF, some "reserved by this part of ISO 13400"⟩,
    ⟨0x00, 0x00, none⟩ ]

/-- The array `hf` of `register_proto_doip_payload_4002`. -/
def hf : List hf_register_info :=
  [ ⟨.hf_nd, "Node type", "doip.nd", .FT_UINT8, some node_types⟩,
    ⟨.hf_mcts, "Max. concurrent TCP_DATA sockets", "doip.mcts", .FT_UINT8, none⟩,
    ⟨.hf_ncts, "Currently open TCP_DATA sockets", "doip.ncts", .FT_UINT8, none⟩,
    ⟨.hf_mds, "Max. data size", "doip.mds", .FT_UINT32, none⟩ ]

/-- The static `fill_tree (tree, tvb, payloadLength)` of `doip-payload-4002.c`. -/
def fill_tree (tree : proto_tree) (tvb : tvbuff_t) (payloadLength : Nat) : proto_tree :=
  let REL_ND_POS : Int := 0
  let ND_LEN : Int := 1
  let REL_MCTS_POS : Int := 1
  let MCTS_LEN : Int := 1
  let REL_NCTS_POS : Int := 2
  let NCTS_LEN : Int := 1
  let REL_MDS_POS : Int := 3
  let MDS_LEN : Int := 4
  let mds_is_present : Bool := decide (toGint payloadLength ≥ REL_MDS_POS + MDS_LEN)
  let tree := insert_item_to_tree tree .hf_nd tvb REL_ND_POS ND_LEN .ENC_BIG_ENDIAN
  let tree := insert_item_to_tree tree .hf_mcts tvb REL_MCTS_POS MCTS_LEN .ENC_BIG_ENDIAN
  let tree := insert_item_to_tree tree .hf_ncts tvb REL_NCTS_POS NCTS_LEN .ENC_BIG_ENDIAN
  if mds_is_present then
    insert_item_to_tree tree .hf_mds tvb REL_MDS_POS MDS_LEN .ENC_BIG_ENDIAN
  else
    tree

/-- The function `dissect_payload_4002 (header, pitem, pinfo)`. `doip_tree` is what
`proto_item_add_subtree` returned (`none` for `NULL`). -/
def dissect_payload_4002 (helper : doip_helper) (header : doip_header)
    (doip_tree : Option proto_tree) : DissectResult :=
  let payloadLength := header.payload.length
  let tvb := helper.retrieve_tvbuff header
  let col_info : ColInfo :=
    match helper.get_guint8_from_message header 0 with
    | none => .col_set_str description
    | some node_type =>
      match helper.get_guint8_from_message header 2 with
      | none => .col_set_str description
      | some open_tcp_socks =>
        match helper.get_guint32_from_message header 3 with
        | none => .col_set_str description
        | some max_data_size =>
          .col_add_fstr description_format [node_type, open_tcp_socks, max_data_size]
  match doip_tree, tvb with
  | some t, some b => ⟨col_info, fill_tree t b payloadLength⟩
  | some t, none => ⟨col_info, t⟩
  | none, _ => ⟨col_info, []⟩

end Payload4002

/-! ## doip-payload-8003.c -/

namespace Payload8003

/-- The table `nack_codes` (ISO 13400-2:2012(E), table 31). -/
def nack_codes : List range_string :=
  [ ⟨0x00, 0x01, some "Reserved by this part of ISO 13400"⟩,
    ⟨0x02, 0x02, some "Invalid source address"⟩,
    ⟨0x02, 0x02, some "Invalid source address"⟩,
    ⟨0x03, 0x03, some "Unknown target address"⟩,
    ⟨0x04, 0x04, some "Diagnostic message too large"⟩,
    ⟨0x05, 0x05, some "Out of memory"⟩,
    ⟨0x06, 0x06, some "Target unreachable"⟩,
    ⟨0x07, 0x07, some "Unknown network"⟩,
    ⟨0x08, 0x08, some "Transport protocol error"⟩,
    ⟨0x09, 0xFF, some "Reserved by this part of ISO 13400"⟩,
    ⟨0x00, 0x00, none⟩ ]

/-- The table `nack_codes` as the specification reads it: the second `{0x02, 0x02}` entry
removed. -/
def nack_codes_without_duplicate : List range_string :=
  nack_codes.eraseIdx 2

/-- The table `address_values` (ISO 13400-2:2012(E), table 39). -/
def address_values : List range_string :=
  [ ⟨0x0000, 0x0000, some "ISO/SAE reserved"⟩,
    ⟨0x0001, 0x0DFF, some "Vehicle manufacturer specific"⟩,
    ⟨0x0E00, 0x0FFF, some "Reserved for addresses of external test equipment"⟩,
    ⟨0x0E00, 0x0E7F, some "External legislated diagnostics test equipment (e.g. for emissions test scan-tool use)"⟩,
    ⟨0x0E80, 0x0EFF, some "External vehicle-manufacturer-/aftermarket-enhanced diagnostics test equipment"⟩,
    ⟨0x0F00, 0x0F7F, some "Internal data collection/on-board diagnostic equipment (for vehicle-manufacturer use only)"⟩,
    ⟨0x0F80, 0x0FFF, some "External prolonged data collection equipment (vehicle data recorders and loggers, e.g. used by insurance companies or to collect vehicle fleet data)"⟩,
    ⟨0x1000, 0x7FFF, some "Vehicle manufacturer specific"⟩,
    ⟨0x8000, 0xCFFF, some "ISO/SAE reserved"⟩,
    ⟨0xD000, 0xDFFF, some "Reserved for SAE Truck & Bus Control and Communication Committee"⟩,
    ⟨0xE000, 0xE3FF, some "ISO/SAE-reserved functional group addresses"⟩,
    ⟨0xE000, 0xE000, some "ISO 27145 WWH-OBD functional group address"⟩,
    ⟨0xE001, 0xE3FF, some "ISO/SAE reserved"⟩,
    ⟨0xE400, 0xEFFF, some "Vehicle-manufacturer-defined functional group logical addresses"⟩,
    ⟨0xF000, 0xFFFF, some "ISO/SAE reserved"⟩,
    ⟨0x0000, 0x0000, none⟩ ]

/-- The static `description`. -/
def description : String := "Diagnostic message negative acknowledge"

/-- The static `description_format`. -/
def description_format : String :=
  "Diagnostic message negative acknowledge [Source addr: %#x, Dest addr: %#x, Nack: %#x]"

/-- The array `hf` of `register_proto_doip_payload_8003`. -/
def hf : List hf_register_info :=
  [ ⟨.hf_sa, "Source address", "doip.sa", .FT_UINT16, some address_values⟩,
    ⟨.hf_ta, "Target address", "doip.ta", .FT_UINT16, some address_values⟩,
    ⟨.hf_nack, "NACK code", "doip.nack", .FT_UINT8, some nack_codes⟩,
    ⟨.hf_pdmd, "Previous diagnostic message data", "doip.pdmd", .FT_BYTES, none⟩ ]

/-- The static `fill_tree (header, tree, tvb)` of `doip-payload-8003.c`. -/
def fill_tree (header : doip_header) (tree : proto_tree) (tvb : tvbuff_t) : proto_tree :=
  let REL_SRC_ADDR_POS : Int := 0
  let SRC_ADDR_LEN : Int := 2
  let REL_TARGET_ADDR_POS : Int := 2
  let TARGET_ADDR_LEN : Int := 2
  let REL_NACK_CODE_POS : Int := 4
  let NACK_CODE_LEN : Int := 1
  let REL_PREV_DIAG_MSG_POS : Int := 5
  let payload_len : Int := toGint header.payload.length
  let has_prev_diag_msg : Bool := decide (payload_len > REL_PREV_DIAG_MSG_POS)
  let tree := insert_item_to_tree tree .hf_sa tvb REL_SRC_ADDR_POS SRC_ADDR_LEN .ENC_BIG_ENDIAN
  let tree :=
    insert_item_to_tree tree .hf_ta tvb REL_TARGET_ADDR_POS TARGET_ADDR_LEN .ENC_BIG_ENDIAN
  let tree := insert_item_to_tree tree .hf_nack tvb REL_NACK_CODE_POS NACK_CODE_LEN .ENC_BIG_ENDIAN
  if has_prev_diag_msg then
    let prev_diag_msg_len : Int := payload_len - REL_PREV_DIAG_MSG_POS
    insert_item_to_tree tree .hf_pdmd tvb REL_PREV_DIAG_MSG_POS prev_diag_msg_len .ENC_NA
  else
    tree

/-- The function `dissect_payload_8003 (header, pitem, pinfo)`. `doip_tree` is what
`proto_item_add_subtree` returned (`none` for `NULL`). -/
def dissect_payload_8003 (helper : doip_helper) (header : doip_header)
    (doip_tree : Option proto_tree) : DissectResult :=
  let col_info : ColInfo :=
    match helper.get_guint16_from_message header 0 with
    | none => .col_set_str description
    | some src_addr =>
      match helper.get_guint16_from_message header 2 with
      | none => .col_set_str description
      | some dest_addr =>
        match helper.get_guint8_from_message header 4 with
        | none => .col_set_str description
        | some nack_code => .col_add_fstr description_format [src_addr, dest_addr, nack_code]
  let tvb := helper.retrieve_tvbuff header
  match doip_tree, tvb with
  | some t, some b => ⟨col_info, fill_tree header t b⟩
  | some t, none => ⟨col_info, t⟩
  | none, _ => ⟨col_info, []⟩

end Payload8003

end Doip

namespace Doip

/-! ## Auxiliary facts -/

theorem toGint_of_lt (n : Nat) (h : n < 2147483648) : toGint n = (n : Int) := by
  unfold toGint
  have h1 : n % 2 ^ 32 = n := Nat.mod_eq_of_lt (by omega)
  rw [h1]
  simp only [Nat.reducePow]
  rw [if_pos h]

theorem toGint_of_ge (n : Nat) (h : 2147483648 ≤ n) (h2 : n < 4294967296) :
    toGint n = (n : Int) - 4294967296 := by
  unfold toGint
  have h1 : n % 2 ^ 32 = n := Nat.mod_eq_of_lt (by omega)
  rw [h1]
  simp only [Nat.reducePow]
  rw [if_neg (by omega)]
  norm_num

theorem fill_tree_4002_eq (tree : proto_tree) (tvb : tvbuff_t) (L : Nat) :
    Payload4002.fill_tree tree tvb L =
      tree ++ [⟨.hf_nd, 0, 1, .ENC_BIG_ENDIAN⟩, ⟨.hf_mcts, 1, 1, .ENC_BIG_ENDIAN⟩,
        ⟨.hf_ncts, 2, 1, .ENC_BIG_ENDIAN⟩] ++
        (if 7 ≤ toGint L then [⟨.hf_mds, 3, 4, .ENC_BIG_ENDIAN⟩] else []) := by
  unfold Payload4002.fill_tree insert_item_to_tree
  by_cases h : 7 ≤ toGint L
  · simp [h]
  · simp [h]

theorem fill_tree_8003_eq (header : doip_header) (tree : proto_tree) (tvb : tvbuff_t) :
    Payload8003.fill_tree header tree tvb =
      tree ++ [⟨.hf_sa, 0, 2, .ENC_BIG_ENDIAN⟩, ⟨.hf_ta, 2, 2, .ENC_BIG_ENDIAN⟩,
        ⟨.hf_nack, 4, 1, .ENC_BIG_ENDIAN⟩] ++
        (if 5 < toGint header.payload.length then
          [⟨.hf_pdmd, 5, toGint header.payload.length - 5, .ENC_NA⟩] else []) := by
  unfold Payload8003.fill_tree insert_item_to_tree
  by_cases h : 5 < toGint header.payload.length
  · simp [h]
  · simp [h]

theorem gint_ge_iff (L k : Nat) (hL : L < 4294967296) (hk : k < 2147483648) :
    (k : Int) ≤ toGint L ↔ (k ≤ L ∧ L < 2147483648) := by
  by_cases h : L < 2147483648
  · rw [toGint_of_lt L h]; omega
  · rw [toGint_of_ge L (by omega) hL]; omega

/-! ## Optional fields in the tree (C1, C2) -/

/-- C1, as stated, fails: at the declared length `2 ^ 31` (an unsigned 32-bit value that is
at least 7) the status-response `fill_tree` does not insert the max-data-size item,
because `(gint) payloadLength` is negative there. -/
theorem C1_counterexample :
    2147483648 < 2 ^ 32 ∧
      ¬ ((⟨.hf_mds, 3, 4, .ENC_BIG_ENDIAN⟩ : TreeItem) ∈ Payload4002.fill_tree [] [] 2147483648 ↔
          7 ≤ 2147483648) := by
  decide

/-- C1, amended: for every unsigned 32-bit declared payload length `L` the status-response
`fill_tree` adds the three required items and then the max-data-size item (offset 3,
length 4) exactly when `7 ≤ L < 2 ^ 31`; so an item with handle `hf_mds` is in the tree
if and only if `7 ≤ L < 2 ^ 31`. -/
theorem C1_mds_present_iff (tvb : tvbuff_t) (L : Nat) (hL : L < 2 ^ 32) :
    Payload4002.fill_tree [] tvb L =
        [⟨.hf_nd, 0, 1, .ENC_BIG_ENDIAN⟩, ⟨.hf_mcts, 1, 1, .ENC_BIG_ENDIAN⟩,
          ⟨.hf_ncts, 2, 1, .ENC_BIG_ENDIAN⟩] ++
        (if 7 ≤ L ∧ L < 2 ^ 31 then [⟨.hf_mds, 3, 4, .ENC_BIG_ENDIAN⟩] else []) ∧
      ((∃ item ∈ Payload4002.fill_tree [] tvb L, item.hfindex = .hf_mds) ↔
        (7 ≤ L ∧ L < 2 ^ 31)) ∧
      ((⟨.hf_mds, 3, 4, .ENC_BIG_ENDIAN⟩ : TreeItem) ∈ Payload4002.fill_tree [] tvb L ↔
        (7 ≤ L ∧ L < 2 ^ 31)) := by
  simp only [Nat.reducePow] at hL ⊢
  have hg : (7 : Int) ≤ toGint L ↔ (7 ≤ L ∧ L < 2147483648) := by
    simpa using gint_ge_iff L 7 hL (by norm_num)
  rw [fill_tree_4002_eq]
  by_cases h : 7 ≤ L ∧ L < 2147483648
  · rw [if_pos (hg.mpr h), if_pos h]
    simp [h.1, h.2]
  · rw [if_neg (fun c => h (hg.mp c)), if_neg h]
    simp only [List.append_nil, List.nil_append, List.mem_cons, List.mem_singleton]
    refine ⟨trivial, ⟨?_, fun c => absurd c h⟩, ⟨?_, fun c => absurd c h⟩⟩
    · rintro ⟨item, hmem, hhf⟩
      rcases hmem with rfl | rfl | rfl | hmem
      · cases hhf
      · cases hhf
      · cases hhf
      · cases hmem
    · intro hmem
      rcases hmem with hmem | hmem | hmem | hmem
      · cases hmem
      · cases hmem
      · cases hmem
      · cases hmem

/-- C1, witness: at `L = 8` the max-data-size item is in the tree; at `L = 4` it is not. -/
theorem C1_mds_present_iff_witness :
    (8 < 2 ^ 32 ∧
      (⟨.hf_mds, 3, 4, .ENC_BIG_ENDIAN⟩ : TreeItem) ∈ Payload4002.fill_tree [] [] 8) ∧
    (4 < 2 ^ 32 ∧
      (⟨.hf_mds, 3, 4, .ENC_BIG_ENDIAN⟩ : TreeItem) ∉ Payload4002.fill_tree [] [] 4) :=
  ⟨⟨by decide, (C1_mds_present_iff [] 8 (by decide)).2.2.mpr (by decide)⟩,
    ⟨by decide, fun h => absurd ((C1_mds_present_iff [] 4 (by decide)).2.2.mp h) (by decide)⟩⟩

/-- C2, as stated, fails: at the declared length `2 ^ 31` (an unsigned 32-bit value larger
than 5) the negative-ack `fill_tree` inserts no previous-diagnostic-message-data item,
because the `gint` variable `payload_len` is negative there. -/
theorem C2_counterexample :
    2147483648 < 2 ^ 32 ∧
      ¬ ((∃ item ∈ Payload8003.fill_tree ⟨⟨2147483648⟩⟩ [] [], item.hfindex = .hf_pdmd) ↔
          5 < 2147483648) := by
  decide

/-- C2, amended: for every unsigned 32-bit declared payload length `L` the negative-ack
`fill_tree` adds the three required items and then the previous-diagnostic-message-data
item exactly when `5 < L < 2 ^ 31`; the item then starts at offset 5 and has length
`L - 5`. For the seven octets `0E 00 00 01 02 AA BB` the item covers `AA BB`, and for the
first five of them alone it is absent. -/
theorem C2_pdmd_present_iff (tvb : tvbuff_t) (L : Nat) (hL : L < 2 ^ 32) :
    Payload8003.fill_tree ⟨⟨L⟩⟩ [] tvb =
        [⟨.hf_sa, 0, 2, .ENC_BIG_ENDIAN⟩, ⟨.hf_ta, 2, 2, .ENC_BIG_ENDIAN⟩,
          ⟨.hf_nack, 4, 1, .ENC_BIG_ENDIAN⟩] ++
        (if 5 < L ∧ L < 2 ^ 31 then [⟨.hf_pdmd, 5, (L : Int) - 5, .ENC_NA⟩] else []) ∧
      ((∃ item ∈ Payload8003.fill_tree ⟨⟨L⟩⟩ [] tvb, item.hfindex = .hf_pdmd) ↔
        (5 < L ∧ L < 2 ^ 31)) ∧
      (∀ item ∈ Payload8003.fill_tree ⟨⟨L⟩⟩ [] tvb, item.hfindex = .hf_pdmd →
        item.start = 5 ∧ item.length = (L : Int) - 5) ∧
      (renderTree Payload8003.hf [0x0E, 0x00, 0x00, 0x01, 0x02, 0xAA, 0xBB]
          (Payload8003.fill_tree ⟨⟨7⟩⟩ [] [0x0E, 0x00, 0x00, 0x01, 0x02, 0xAA, 0xBB])).getLast? =
        some (some ⟨.hf_pdmd, .bytes [0xAA, 0xBB]⟩) ∧
      (renderTree Payload8003.hf [0x0E, 0x00, 0x00, 0x01, 0x02]
          (Payload8003.fill_tree ⟨⟨5⟩⟩ [] [0x0E, 0x00, 0x00, 0x01, 0x02])).map
            (Option.map DecodedField.hfindex) =
        [some .hf_sa, some .hf_ta, some .hf_nack] := by
  simp only [Nat.reducePow] at hL ⊢
  have hg : (5 : Int) < toGint L ↔ (5 < L ∧ L < 2147483648) := by
    have h6 := gint_ge_iff L 6 hL (by norm_num)
    constructor
    · intro h
      have := h6.mp (by push_cast; omega)
      omega
    · intro h
      have := h6.mpr (by omega)
      push_cast at this
      omega
  refine ⟨?_, ?_, ?_, by decide, by decide⟩
  · rw [fill_tree_8003_eq]
    by_cases h : 5 < L ∧ L < 2147483648
    · rw [if_pos (hg.mpr h), if_pos h, toGint_of_lt L h.2]
      rfl
    · rw [if_neg (fun c => h (hg.mp c)), if_neg h]
      rfl
  · rw [fill_tree_8003_eq]
    by_cases h : 5 < L ∧ L < 2147483648
    · rw [if_pos (hg.mpr h)]
      simp [h.1, h.2]
    · rw [if_neg (fun c => h (hg.mp c))]
      simp only [List.append_nil, List.nil_append, List.mem_cons, List.mem_singleton]
      refine ⟨?_, fun c => absurd c h⟩
      rintro ⟨item, hmem, hhf⟩
      rcases hmem with rfl | rfl | rfl | hmem
      · cases hhf
      · cases hhf
      · cases hhf
      · cases hmem
  · rw [fill_tree_8003_eq]
    by_cases h : 5 < L ∧ L < 2147483648
    · rw [if_pos (hg.mpr h), toGint_of_lt L h.2]
      intro item hmem hhf
      simp only [List.nil_append, List.cons_append, List.mem_cons, List.mem_singleton,
        List.not_mem_nil, or_false] at hmem
      rcases hmem with rfl | rfl | rfl | rfl
      · cases hhf
      · cases hhf
      · cases hhf
      · exact ⟨rfl, rfl⟩
    · rw [if_neg (fun c => h (hg.mp c))]
      intro item hmem hhf
      simp only [List.append_nil, List.nil_append, List.mem_cons, List.mem_singleton,
        List.not_mem_nil, or_false] at hmem
      rcases hmem with rfl | rfl | rfl
      · cases hhf
      · cases hhf
      · cases hhf

/-- C2, witness: at `L = 7` the previous-diagnostic-message-data item is `(5, 2)`. -/
theorem C2_pdmd_present_iff_witness :
    7 < 2 ^ 32 ∧
      Payload8003.fill_tree ⟨⟨7⟩⟩ [] [0x0E, 0x00, 0x00, 0x01, 0x02, 0xAA, 0xBB] =
        [⟨.hf_sa, 0, 2, .ENC_BIG_ENDIAN⟩, ⟨.hf_ta, 2, 2, .ENC_BIG_ENDIAN⟩,
          ⟨.hf_nack, 4, 1, .ENC_BIG_ENDIAN⟩, ⟨.hf_pdmd, 5, 2, .ENC_NA⟩] :=
  ⟨by decide,
    (C2_pdmd_present_iff [0x0E, 0x00, 0x00, 0x01, 0x02, 0xAA, 0xBB] 7 (by decide)).1.trans
      (by decide)⟩

/-! ## Required fields and requested byte ranges (C3, C4) -/

/-- C3, as stated, fails: at the declared length 0 the status-response `fill_tree` hands
the node-type item (offset 0, length 1) to `insert_item_to_tree`, although
`0 < 0 + 1`. -/
theorem C3_counterexample :
    0 < 4 ∧
      ¬ ((⟨.hf_nd, 0, 1, .ENC_BIG_ENDIAN⟩ : TreeItem) ∈ Payload4002.fill_tree [] [] 0 ↔
          0 + 1 ≤ 0) := by
  decide

/-- C3, amended: for every declared length `L < 4` the status-response `fill_tree` hands
exactly the three required items to `insert_item_to_tree` (node type at offset 0, max
concurrent sockets at offset 1, currently open sockets at offset 2, one octet each),
whether or not they fit in `L`, and no max-data-size item. -/
theorem C3_required_unconditional (tvb : tvbuff_t) (L : Nat) (hL : L < 4) :
    Payload4002.fill_tree [] tvb L =
        [⟨.hf_nd, 0, 1, .ENC_BIG_ENDIAN⟩, ⟨.hf_mcts, 1, 1, .ENC_BIG_ENDIAN⟩,
          ⟨.hf_ncts, 2, 1, .ENC_BIG_ENDIAN⟩] ∧
      ¬ (∃ item ∈ Payload4002.fill_tree [] tvb L, item.hfindex = .hf_mds) := by
  have hg : ¬ (7 : Int) ≤ toGint L := by
    rw [toGint_of_lt L (by omega)]
    omega
  rw [fill_tree_4002_eq, if_neg hg]
  refine ⟨rfl, ?_⟩
  rintro ⟨item, hmem, hhf⟩
  simp only [List.append_nil, List.nil_append, List.mem_cons, List.mem_singleton,
    List.not_mem_nil, or_false] at hmem
  rcases hmem with rfl | rfl | rfl
  · cases hhf
  · cases hhf
  · cases hhf

/-- C3, witness: the declared length 0. -/
theorem C3_required_unconditional_witness :
    0 < 4 ∧
      Payload4002.fill_tree [] [] 0 =
        [⟨.hf_nd, 0, 1, .ENC_BIG_ENDIAN⟩, ⟨.hf_mcts, 1, 1, .ENC_BIG_ENDIAN⟩,
          ⟨.hf_ncts, 2, 1, .ENC_BIG_ENDIAN⟩] :=
  ⟨by decide, (C3_required_unconditional [] 0 (by decide)).1⟩

/-- C4, as stated, fails for both decoders: at the declared length 0 the status-response
`fill_tree` requests the range `[0, 1)` and the negative-ack `fill_tree` requests
`[0, 2)`. -/
theorem C4_counterexample :
    ¬ requestsWithin 0 (Payload4002.fill_tree [] [] 0) ∧
      ¬ requestsWithin 0 (Payload8003.fill_tree ⟨⟨0⟩⟩ [] []) := by
  decide

/-- C4, amended: for every unsigned 32-bit declared length `L`, all byte ranges that the
status-response `fill_tree` requests lie within `[0, L)` if and only if `3 ≤ L`, and all
that the negative-ack `fill_tree` requests do if and only if `5 ≤ L`; the optional items
(max data size, previous diagnostic message data), when requested, always lie within
`[0, L)`. -/
theorem C4_requests_within_iff (tvb : tvbuff_t) (L : Nat) (hL : L < 2 ^ 32) :
    (requestsWithin L (Payload4002.fill_tree [] tvb L) ↔ 3 ≤ L) ∧
      (requestsWithin L (Payload8003.fill_tree ⟨⟨L⟩⟩ [] tvb) ↔ 5 ≤ L) ∧
      (∀ item ∈ Payload4002.fill_tree [] tvb L, item.hfindex = .hf_mds →
        0 ≤ item.start ∧ 0 ≤ item.length ∧ item.start + item.length ≤ (L : Int)) ∧
      (∀ item ∈ Payload8003.fill_tree ⟨⟨L⟩⟩ [] tvb, item.hfindex = .hf_pdmd →
        0 ≤ item.start ∧ 0 ≤ item.length ∧ item.start + item.length ≤ (L : Int)) := by
  simp only [Nat.reducePow] at hL
  have h7 : (7 : Int) ≤ toGint L ↔ (7 ≤ L ∧ L < 2147483648) := by
    simpa using gint_ge_iff L 7 hL (by norm_num)
  have h6 : (5 : Int) < toGint L ↔ (6 ≤ L ∧ L < 2147483648) := by
    have h := gint_ge_iff L 6 hL (by norm_num)
    constructor
    · intro c
      exact h.mp (by push_cast; omega)
    · intro c
      have := h.mpr c
      push_cast at this
      omega
  unfold requestsWithin
  rw [fill_tree_4002_eq, fill_tree_8003_eq]
  refine ⟨?_, ?_, ?_, ?_⟩
  · by_cases h : 7 ≤ L ∧ L < 2147483648
    · rw [if_pos (h7.mpr h)]
      simp
      omega
    · rw [if_neg (fun c => h (h7.mp c))]
      simp
      omega
  · by_cases h : 6 ≤ L ∧ L < 2147483648
    · rw [if_pos (h6.mpr h), toGint_of_lt L h.2]
      simp
      omega
    · rw [if_neg (fun c => h (h6.mp c))]
      simp
      omega
  · by_cases h : 7 ≤ L ∧ L < 2147483648
    · rw [if_pos (h7.mpr h)]
      simp
      omega
    · rw [if_neg (fun c => h (h7.mp c))]
      simp
  · by_cases h : 6 ≤ L ∧ L < 2147483648
    · rw [if_pos (h6.mpr h), toGint_of_lt L h.2]
      simp
      omega
    · rw [if_neg (fun c => h (h6.mp c))]
      simp

/-- C4, witness: at `L = 7` all requested ranges of both decoders lie within seven
octets. -/
theorem C4_requests_within_iff_witness :
    7 < 2 ^ 32 ∧ requestsWithin 7 (Payload4002.fill_tree [] [] 7) ∧
      requestsWithin 7 (Payload8003.fill_tree ⟨⟨7⟩⟩ [] []) :=
  ⟨by decide, (C4_requests_within_iff [] 7 (by decide)).1.mpr (by decide),
    (C4_requests_within_iff [] 7 (by decide)).2.1.mpr (by decide)⟩

/-! ## Range tables (C6, C8, C10) -/

/-- C6: lookup in `node_types` is total and unambiguous. For every unsigned 8-bit value
`v` exactly one entry before the closing `NULL` entry has `value_min ≤ v ≤ value_max`, and
first-match lookup returns "DoIP gateway" for 0, "DoIP node" for 1 and "reserved by this
part of ISO 13400" for every `v ≥ 2`; it never returns `none`. -/
theorem C6_node_types_total (v : Nat) (hv : v < 256) :
    ((Payload4002.node_types.filter
        (fun e => e.strptr.isSome && decide (e.value_min ≤ v ∧ v ≤ e.value_max))).length = 1) ∧
      try_rval_to_str v Payload4002.node_types =
        some (if v = 0 then "DoIP gateway" else if v = 1 then "DoIP node"
          else "reserved by this part of ISO 13400") ∧
      try_rval_to_str v Payload4002.node_types ≠ none := by
  obtain rfl | rfl | h : v = 0 ∨ v = 1 ∨ 2 ≤ v := by omega
  · decide
  · decide
  · have h0 : v ≠ 0 := by omega
    have h1 : v ≠ 1 := by omega
    have h255 : v ≤ 255 := by omega
    have hn1 : ¬ v ≤ 1 := by omega
    simp [Payload4002.node_types, try_rval_to_str, try_rval_to_str_idx,
      try_rval_to_str_idx_from, List.filter, h0, h1, h, h255, hn1]

/-- C6, witness: the value `0xFF`. -/
theorem C6_node_types_total_witness :
    255 < 256 ∧
      try_rval_to_str 255 Payload4002.node_types = some "reserved by this part of ISO 13400" :=
  ⟨by decide, (C6_node_types_total 255 (by decide)).2.1.trans (by decide)⟩

/-- The label found by first-match lookup does not depend on the index the scan starts
to count from. -/
theorem try_rval_to_str_idx_from_label (val : Nat) (rs : List range_string) (i j : Nat) :
    (try_rval_to_str_idx_from val rs i).map Prod.snd =
      (try_rval_to_str_idx_from val rs j).map Prod.snd := by
  induction rs generalizing i j with
  | nil => rfl
  | cons e rest ih =>
    unfold try_rval_to_str_idx_from
    cases e.strptr with
    | none => rfl
    | some s =>
      by_cases h : e.value_min ≤ val ∧ val ≤ e.value_max
      · simp [h]
      · simp only [h, if_false]
        exact ih (i + 1) (j + 1)

/-- An entry that directly repeats the entry before it never changes the label found. -/
theorem try_rval_to_str_idx_from_repeat (val : Nat) (e : range_string)
    (rest : List range_string) (i j : Nat) :
    (try_rval_to_str_idx_from val (e :: e :: rest) i).map Prod.snd =
      (try_rval_to_str_idx_from val (e :: rest) j).map Prod.snd := by
  rw [try_rval_to_str_idx_from_label val (e :: rest) j i]
  cases hs : e.strptr with
  | none => simp [try_rval_to_str_idx_from, hs]
  | some s =>
    by_cases h : e.value_min ≤ val ∧ val ≤ e.value_max
    · simp [try_rval_to_str_idx_from, hs, h]
    · have step : ∀ k, try_rval_to_str_idx_from val (e :: rest) k =
          try_rval_to_str_idx_from val rest (k + 1) := by
        intro k
        rw [try_rval_to_str_idx_from]
        simp only [hs, h, if_false]
      have step2 : try_rval_to_str_idx_from val (e :: e :: rest) i =
          try_rval_to_str_idx_from val (e :: rest) (i + 1) := by
        rw [try_rval_to_str_idx_from]
        simp only [hs, h, if_false]
      rw [step2, step, step]
      exact try_rval_to_str_idx_from_label val rest _ _

/-- C8: the repeated `0x02` entry of `nack_codes` is harmless. For every value `v`
first-match lookup in `nack_codes` returns the same label as first-match lookup in the
table with the second `{0x02, 0x02}` entry removed, and the two `0x02` entries carry the
same bounds and the same label "Invalid source address". -/
theorem C8_nack_codes_duplicate_harmless (v : Nat) :
    try_rval_to_str v Payload8003.nack_codes =
        try_rval_to_str v Payload8003.nack_codes_without_duplicate ∧
      Payload8003.nack_codes.get? 1 = some ⟨0x02, 0x02, some "Invalid source address"⟩ ∧
      Payload8003.nack_codes.get? 2 = some ⟨0x02, 0x02, some "Invalid source address"⟩ ∧
      Payload8003.nack_codes_without_duplicate.length + 1 = Payload8003.nack_codes.length := by
  refine ⟨?_, by decide, by decide, by decide⟩
  unfold try_rval_to_str try_rval_to_str_idx Payload8003.nack_codes_without_duplicate
    Payload8003.nack_codes
  simp only [List.eraseIdx_cons_succ, List.eraseIdx_cons_zero]
  rw [try_rval_to_str_idx_from, try_rval_to_str_idx_from.eq_def v (_ :: _ :: _) 0]
  by_cases h : 0 ≤ v ∧ v ≤ 1
  · simp [h]
  · simp only [h, if_false]
    exact try_rval_to_str_idx_from_repeat v _ _ _ _

/-- A scan step at an entry whose range contains the value: the scan stops there. -/
theorem try_rval_to_str_idx_from_hit (val lo hi : Nat) (s : String)
    (rest : List range_string) (i : Nat) (h1 : lo ≤ val) (h2 : val ≤ hi) :
    try_rval_to_str_idx_from val (⟨lo, hi, some s⟩ :: rest) i = some (i, s) := by
  rw [try_rval_to_str_idx_from]
  simp only [h1, h2, and_self, if_true]

/-- A scan step at an entry whose range does not contain the value: the scan goes on. -/
theorem try_rval_to_str_idx_from_miss (val lo hi : Nat) (s : String)
    (rest : List range_string) (i : Nat) (h : val < lo ∨ hi < val) :
    try_rval_to_str_idx_from val (⟨lo, hi, some s⟩ :: rest) i =
      try_rval_to_str_idx_from val rest (i + 1) := by
  rw [try_rval_to_str_idx_from]
  have hn : ¬ (lo ≤ val ∧ val ≤ hi) := by omega
  simp only [hn, if_false]

/-- C10: under first-match lookup over `address_values` every unsigned 16-bit address
resolves to a label, and the matching entry is never one of the entries 3, 4, 5, 6
(ranges 0x0E00-0x0E7F, 0x0E80-0x0EFF, 0x0F00-0x0F7F, 0x0F80-0x0FFF), 11 or 12 (ranges
0xE000-0xE000, 0xE001-0xE3FF): addresses in 0x0E00-0x0FFF stop at entry 2 and addresses
in 0xE000-0xE3FF stop at entry 10. -/
theorem C10_address_values_shadowed (v : Nat) (hv : v < 65536) :
    (∃ i s, try_rval_to_str_idx v Payload8003.address_values = some (i, s) ∧
        try_rval_to_str v Payload8003.address_values = some s ∧
        i ∉ [3, 4, 5, 6, 11, 12] ∧
        (0x0E00 ≤ v ∧ v ≤ 0x0FFF → i = 2) ∧ (0xE000 ≤ v ∧ v ≤ 0xE3FF → i = 10)) ∧
      [3, 4, 5, 6, 11, 12].map (fun i =>
          (Payload8003.address_values.get? i).map (fun e => (e.value_min, e.value_max))) =
        [some (0x0E00, 0x0E7F), some (0x0E80, 0x0EFF), some (0x0F00, 0x0F7F),
          some (0x0F80, 0x0FFF), some (0xE000, 0xE000), some (0xE001, 0xE3FF)] ∧
      [2, 10].map (fun i =>
          (Payload8003.address_values.get? i).map (fun e => (e.value_min, e.value_max))) =
        [some (0x0E00, 0x0FFF), some (0xE000, 0xE3FF)] := by
  refine ⟨?_, by decide, by decide⟩
  have key : ∃ i s, try_rval_to_str_idx v Payload8003.address_values = some (i, s) ∧
      i ∉ [3, 4, 5, 6, 11, 12] ∧
      (0x0E00 ≤ v ∧ v ≤ 0x0FFF → i = 2) ∧ (0xE000 ≤ v ∧ v ≤ 0xE3FF → i = 10) := by
    unfold try_rval_to_str_idx Payload8003.address_values
    obtain h | h | h | h | h | h | h | h | h :
        v = 0 ∨ (1 ≤ v ∧ v ≤ 0x0DFF) ∨ (0x0E00 ≤ v ∧ v ≤ 0x0FFF) ∨
        (0x1000 ≤ v ∧ v ≤ 0x7FFF) ∨ (0x8000 ≤ v ∧ v ≤ 0xCFFF) ∨
        (0xD000 ≤ v ∧ v ≤ 0xDFFF) ∨ (0xE000 ≤ v ∧ v ≤ 0xE3FF) ∨
        (0xE400 ≤ v ∧ v ≤ 0xEFFF) ∨ 0xF000 ≤ v := by omega
    all_goals
      simp (disch := omega) only [try_rval_to_str_idx_from_hit, try_rval_to_str_idx_from_miss]
      exact ⟨_, _, rfl, by decide, fun _ => by first | rfl | omega,
        fun _ => by first | rfl | omega⟩
  obtain ⟨i, s, h1, h2, h3, h4⟩ := key
  exact ⟨i, s, h1, by rw [try_rval_to_str, h1]; rfl, h2, h3, h4⟩

/-- C10, witness: the address `0x0E00` resolves, and not to a shadowed entry. -/
theorem C10_address_values_shadowed_witness :
    0x0E00 < 65536 ∧
      ∃ i s, try_rval_to_str_idx 0x0E00 Payload8003.address_values = some (i, s) ∧
        i ∉ [3, 4, 5, 6, 11, 12] :=
  ⟨by decide,
    match (C10_address_values_shadowed 0x0E00 (by decide)).1 with
    | ⟨i, s, h1, _, h3, _⟩ => ⟨i, s, h1, h3⟩⟩

/-! ## Decoded values and the info column (C5, C7, C9) -/

/-- Rendering of an integer item whose octets lie in the buffer. -/
theorem renderItem_uint (hf : List hf_register_info) (tvb : tvbuff_t) (item : TreeItem)
    (info : hf_register_info) (octets : List Byte)
    (hfind : hf.find? (fun info => decide (info.p_id = item.hfindex)) = some info)
    (hs : 0 ≤ item.start) (hl : 0 ≤ item.length)
    (hb : tvbBytes tvb item.start.toNat item.length.toNat = some octets)
    (ht : info.type ≠ .FT_BYTES) :
    renderItem hf tvb item =
      some ⟨item.hfindex,
        .uint (beValue octets) (info.strings.bind (try_rval_to_str (beValue octets)))⟩ := by
  unfold renderItem
  rw [hfind]
  have hneg : ¬ (item.start < 0 ∨ item.length < 0) := by omega
  simp only [hneg, if_false, hb]

/-- C5: for every negative-ack payload of five or more octets `b0 b1 b2 b3 b4 ...` (and
every declared length), the first three rendered items are the source address
`b0 * 256 + b1` and the target address `b2 * 256 + b3`, each with its first-match label
from `address_values`, and the NACK code `b4` with its first-match label from
`nack_codes`. For the payload `0E 00 00 01 02` with declared length 5 the tree is exactly:
source `0x0E00` "Reserved for addresses of external test equipment", target `0x0001`
"Vehicle manufacturer specific", NACK `0x02` "Invalid source address", and no
previous-message-data item. -/
theorem C5_negative_ack_values (b0 b1 b2 b3 b4 : Byte) (rest : List Byte)
    (header : doip_header) :
    (renderTree Payload8003.hf (b0 :: b1 :: b2 :: b3 :: b4 :: rest)
        (Payload8003.fill_tree header [] (b0 :: b1 :: b2 :: b3 :: b4 :: rest))).take 3 =
      [ some ⟨.hf_sa, .uint (b0.val * 256 + b1.val)
          (try_rval_to_str (b0.val * 256 + b1.val) Payload8003.address_values)⟩,
        some ⟨.hf_ta, .uint (b2.val * 256 + b3.val)
          (try_rval_to_str (b2.val * 256 + b3.val) Payload8003.address_values)⟩,
        some ⟨.hf_nack, .uint b4.val (try_rval_to_str b4.val Payload8003.nack_codes)⟩ ] ∧
    renderTree Payload8003.hf [0x0E, 0x00, 0x00, 0x01, 0x02]
        (Payload8003.fill_tree ⟨⟨5⟩⟩ [] [0x0E, 0x00, 0x00, 0x01, 0x02]) =
      [ some ⟨.hf_sa, .uint 0x0E00 (some "Reserved for addresses of external test equipment")⟩,
        some ⟨.hf_ta, .uint 0x0001 (some "Vehicle manufacturer specific")⟩,
        some ⟨.hf_nack, .uint 0x02 (some "Invalid source address")⟩ ] := by
  refine ⟨?_, by decide⟩
  have hb1 : tvbBytes (b0 :: b1 :: b2 :: b3 :: b4 :: rest) (0 : Int).toNat (2 : Int).toNat =
      some [b0, b1] := by
    simp [tvbBytes]
  have hb2 : tvbBytes (b0 :: b1 :: b2 :: b3 :: b4 :: rest) (2 : Int).toNat (2 : Int).toNat =
      some [b2, b3] := by
    simp [tvbBytes]
  have hb3 : tvbBytes (b0 :: b1 :: b2 :: b3 :: b4 :: rest) (4 : Int).toNat (1 : Int).toNat =
      some [b4] := by
    simp [tvbBytes]
  have hv : ∀ x y : Byte, beValue [x, y] = x.val * 256 + y.val := by
    intro x y
    simp [beValue]
  have hv1 : ∀ x : Byte, beValue [x] = x.val := by
    intro x
    simp [beValue]
  have r1 := renderItem_uint Payload8003.hf (b0 :: b1 :: b2 :: b3 :: b4 :: rest)
    ⟨.hf_sa, 0, 2, .ENC_BIG_ENDIAN⟩
    ⟨.hf_sa, "Source address", "doip.sa", .FT_UINT16, some Payload8003.address_values⟩
    [b0, b1] rfl (by decide) (by decide) hb1 (by decide)
  have r2 := renderItem_uint Payload8003.hf (b0 :: b1 :: b2 :: b3 :: b4 :: rest)
    ⟨.hf_ta, 2, 2, .ENC_BIG_ENDIAN⟩
    ⟨.hf_ta, "Target address", "doip.ta", .FT_UINT16, some Payload8003.address_values⟩
    [b2, b3] rfl (by decide) (by decide) hb2 (by decide)
  have r3 := renderItem_uint Payload8003.hf (b0 :: b1 :: b2 :: b3 :: b4 :: rest)
    ⟨.hf_nack, 4, 1, .ENC_BIG_ENDIAN⟩
    ⟨.hf_nack, "NACK code", "doip.nack", .FT_UINT8, some Payload8003.nack_codes⟩
    [b4] rfl (by decide) (by decide) hb3 (by decide)
  rw [hv] at r1 r2
  rw [hv1] at r3
  rw [fill_tree_8003_eq]
  unfold renderTree
  simp only [List.nil_append, List.cons_append, List.map_cons, List.take_succ_cons,
    List.take_zero]
  rw [r1, r2, r3]
  rfl

/-- C7: in `dissect_payload_8003`, when each `get_guintN_from_message (header, out, off)`
succeeds exactly for `off + N/8 ≤ L` (the declared payload length) and then gives the
big-endian value at that offset, the info column is the format
"Diagnostic message negative acknowledge [Source addr: %#x, Dest addr: %#x, Nack: %#x]"
with the raw source address, target address and NACK code when `5 ≤ L`, and the plain
text "Diagnostic message negative acknowledge" when `L < 5`. -/
theorem C7_summary_8003 (helper : doip_helper) (b : tvbuff_t) (L : Nat)
    (doip_tree : Option proto_tree)
    (h8 : ∀ off, helper.get_guint8_from_message ⟨⟨L⟩⟩ off =
      if off + 1 ≤ L then some (beValue ((b.drop off).take 1)) else none)
    (h16 : ∀ off, helper.get_guint16_from_message ⟨⟨L⟩⟩ off =
      if off + 2 ≤ L then some (beValue ((b.drop off).take 2)) else none) :
    (Payload8003.dissect_payload_8003 helper ⟨⟨L⟩⟩ doip_tree).col_info =
        (if 5 ≤ L then
          .col_add_fstr
            "Diagnostic message negative acknowledge [Source addr: %#x, Dest addr: %#x, Nack: %#x]"
            [beValue ((b.drop 0).take 2), beValue ((b.drop 2).take 2),
              beValue ((b.drop 4).take 1)]
        else .col_set_str "Diagnostic message negative acknowledge") ∧
      ((∃ args, (Payload8003.dissect_payload_8003 helper ⟨⟨L⟩⟩ doip_tree).col_info =
          .col_add_fstr Payload8003.description_format args) ↔ 5 ≤ L) := by
  have hcol : (Payload8003.dissect_payload_8003 helper ⟨⟨L⟩⟩ doip_tree).col_info =
      (if 5 ≤ L then
        .col_add_fstr Payload8003.description_format
          [beValue ((b.drop 0).take 2), beValue ((b.drop 2).take 2),
            beValue ((b.drop 4).take 1)]
      else .col_set_str Payload8003.description) := by
    have hc : ∀ (c : ColInfo) (t : Option proto_tree) (u : Option tvbuff_t),
        (match t, u with
          | some t, some b => (⟨c, Payload8003.fill_tree ⟨⟨L⟩⟩ t b⟩ : DissectResult)
          | some t, none => ⟨c, t⟩
          | none, _ => ⟨c, []⟩).col_info = c := by
      intro c t u
      cases t <;> cases u <;> rfl
    unfold Payload8003.dissect_payload_8003
    simp only [hc, h8, h16]
    by_cases h5 : 5 ≤ L
    · have a : 0 + 2 ≤ L := by omega
      have c : 2 + 2 ≤ L := by omega
      have d : 4 + 1 ≤ L := by omega
      simp only [a, c, d, h5, if_true]
    · by_cases a : 0 + 2 ≤ L
      · by_cases c : 2 + 2 ≤ L
        · have d : ¬ 4 + 1 ≤ L := by omega
          simp only [a, c, d, h5, if_true, if_false]
        · simp only [a, c, h5, if_true, if_false]
      · simp only [a, h5, if_false]
  refine ⟨hcol, ?_⟩
  rw [hcol]
  by_cases h5 : 5 ≤ L
  · simp [h5]
  · simp [h5]

/-- C7, witness: the payload `0E 00 00 01 02` read through `bufferHelper`, with declared
length 5. -/
theorem C7_summary_8003_witness :
    (Payload8003.dissect_payload_8003 (bufferHelper [0x0E, 0x00, 0x00, 0x01, 0x02]) ⟨⟨5⟩⟩
        (some [])).col_info =
      .col_add_fstr
        "Diagnostic message negative acknowledge [Source addr: %#x, Dest addr: %#x, Nack: %#x]"
        [0x0E00, 0x0001, 0x02] :=
  (C7_summary_8003 (bufferHelper [0x0E, 0x00, 0x00, 0x01, 0x02])
    [0x0E, 0x00, 0x00, 0x01, 0x02] 5 (some []) (fun _ => rfl) (fun _ => rfl)).1.trans
    (by decide)

/-- C9: in `dissect_payload_4002`, when each `get_guintN_from_message (header, out, off)`
succeeds exactly for `off + N/8 ≤ L` (the declared payload length) and then gives the
big-endian value at that offset, the info column is the format
"DoIP status response [Node type: %#x, open TCP sockets: %#x, max. data size: %#x]" if and
only if `7 ≤ L`, since the condition also reads the four octets of the max data size at
offset 3; for every `L` with `3 ≤ L ≤ 6` it is the plain text "DoIP status response". -/
theorem C9_summary_4002 (helper : doip_helper) (b : tvbuff_t) (L : Nat)
    (doip_tree : Option proto_tree)
    (h8 : ∀ off, helper.get_guint8_from_message ⟨⟨L⟩⟩ off =
      if off + 1 ≤ L then some (beValue ((b.drop off).take 1)) else none)
    (h32 : ∀ off, helper.get_guint32_from_message ⟨⟨L⟩⟩ off =
      if off + 4 ≤ L then some (beValue ((b.drop off).take 4)) else none) :
    (Payload4002.dissect_payload_4002 helper ⟨⟨L⟩⟩ doip_tree).col_info =
        (if 7 ≤ L then
          .col_add_fstr
            "DoIP status response [Node type: %#x, open TCP sockets: %#x, max. data size: %#x]"
            [beValue ((b.drop 0).take 1), beValue ((b.drop 2).take 1),
              beValue ((b.drop 3).take 4)]
        else .col_set_str "DoIP status response") ∧
      ((∃ args, (Payload4002.dissect_payload_4002 helper ⟨⟨L⟩⟩ doip_tree).col_info =
          .col_add_fstr Payload4002.description_format args) ↔ 7 ≤ L) ∧
      (3 ≤ L → L ≤ 6 →
        (Payload4002.dissect_payload_4002 helper ⟨⟨L⟩⟩ doip_tree).col_info =
          .col_set_str "DoIP status response") := by
  have hcol : (Payload4002.dissect_payload_4002 helper ⟨⟨L⟩⟩ doip_tree).col_info =
      (if 7 ≤ L then
        .col_add_fstr Payload4002.description_format
          [beValue ((b.drop 0).take 1), beValue ((b.drop 2).take 1),
            beValue ((b.drop 3).take 4)]
      else .col_set_str Payload4002.description) := by
    have hc : ∀ (c : ColInfo) (t : Option proto_tree) (u : Option tvbuff_t),
        (match t, u with
          | some t, some b => (⟨c, Payload4002.fill_tree t b L⟩ : DissectResult)
          | some t, none => ⟨c, t⟩
          | none, _ => ⟨c, []⟩).col_info = c := by
      intro c t u
      cases t <;> cases u <;> rfl
    unfold Payload4002.dissect_payload_4002
    simp only [hc, h8, h32]
    by_cases h7 : 7 ≤ L
    · have a : 0 + 1 ≤ L := by omega
      have c : 2 + 1 ≤ L := by omega
      have d : 3 + 4 ≤ L := by omega
      simp only [a, c, d, h7, if_true]
    · by_cases a : 0 + 1 ≤ L
      · by_cases c : 2 + 1 ≤ L
        · have d : ¬ 3 + 4 ≤ L := by omega
          simp only [a, c, d, h7, if_true, if_false]
        · simp only [a, c, h7, if_true, if_false]
      · simp only [a, h7, if_false]
  refine ⟨hcol, ?_, ?_⟩
  · rw [hcol]
    by_cases h7 : 7 ≤ L
    · simp [h7]
    · simp [h7]
  · intro _ h6
    rw [hcol, if_neg (by omega)]
    rfl

/-- C9, witness: the payload `00 05 02 00 00 00 10` read through `bufferHelper`, with
declared length 6: all three required fields are readable, the info column is the plain
text. -/
theorem C9_summary_4002_witness :
    (Payload4002.dissect_payload_4002 (bufferHelper [0x00, 0x05, 0x02, 0x00, 0x00, 0x00, 0x10])
        ⟨⟨6⟩⟩ (some [])).col_info = .col_set_str "DoIP status response" :=
  (C9_summary_4002 (bufferHelper [0x00, 0x05, 0x02, 0x00, 0x00, 0x00, 0x10])
    [0x00, 0x05, 0x02, 0x00, 0x00, 0x00, 0x10] 6 (some []) (fun _ => rfl) (fun _ => rfl)).2.2
    (by decide) (by decide)

end Doip
